import Mathlib

/-!
Shallow embedding of the copilot-script-runner VS Code extension
(`src/utils/scriptExecutor.ts` — terminal pool, command registry,
`executeInTerminal`, shell dialect builder — and the language-model tools
`RunScriptTool`, `GetScriptOutputTool`).

JS strings are modelled as Lean `String` (lists of characters); JS `Map`s
with insertion-order iteration are modelled as association `List`s;
JS `Set`s as duplicate-free `List`s maintained by the insert/remove
helpers below.  Asynchrony is resolved by an explicit oracle
(`StreamOutcome`) that records which side of the `Promise.race` in the
foreground path won and how many output chunks had arrived by then.
-/

namespace ScriptRunner

/-- JS `str.replace(/\\/g, '/')`: map every backslash to a forward slash. -/
def slashify (s : String) : String :=
  String.mk (s.data.map (fun c => if c = '\\' then '/' else c))

/-- JS `str.replace(/\/$/, '')`: strip one trailing forward slash. -/
def stripTrailingSlash (s : String) : String :=
  match s.data.getLast? with
  | some '/' => String.mk s.data.dropLast
  | _ => s

/-- JS `str.toLowerCase()` on the character sequence. -/
def strToLower (s : String) : String :=
  String.mk (s.data.map Char.toLower)

/--
`normalizePath` from `scriptExecutor` (part_004 lines 149-152): backslashes
to slashes, one trailing slash stripped, lowercased only when the platform
is win32.  The platform is passed explicitly as `isWin`.
-/
def normalizePath (isWin : Bool) (p : String) : String :=
  let normalized := stripTrailingSlash (slashify p)
  if isWin then strToLower normalized else normalized

/--
The WSL path rewrite inside `buildScriptCommand` (part_004 lines 412-414):
`scriptPath.replace(/\\/g,'/').replace(/^([A-Z]):/, (_,l) => '/mnt/'+l.toLowerCase())`.
The drive-letter regex only matches an UPPERCASE letter followed by a colon
at the start of the string.
-/
def wslRewrite (scriptPath : String) : String :=
  let slashed := slashify scriptPath
  match slashed.data with
  | c :: d :: rest =>
      if c.isUpper ∧ d = ':' then
        String.mk ("/mnt/".data ++ [c.toLower] ++ rest)
      else slashed
  | _ => slashed

/-- `ShellType` enum from `scriptExecutor` (part_004 lines 41-50). -/
inductive ShellType where
  | PowerShell
  | Bash
  | Zsh
  | Fish
  | Cmd
  | Wsl
  | GitBash
  | Unknown
deriving DecidableEq, Repr

/-- The string value of each `ShellType` enum member (used in template
interpolation such as the terminal name). -/
def ShellType.str : ShellType → String
  | .PowerShell => "pwsh"
  | .Bash => "bash"
  | .Zsh => "zsh"
  | .Fish => "fish"
  | .Cmd => "cmd"
  | .Wsl => "wsl"
  | .GitBash => "gitbash"
  | .Unknown => "unknown"

/--
`buildScriptCommand` (part_004 lines 396-435): builds the shell-specific
invocation string for a staged script file.  Apostrophes in the source
literals are written `\x27` here.
-/
def buildScriptCommand (scriptPath : String) (shellType : ShellType)
    (executingFromShell : Option ShellType) : String :=
  match shellType with
  | .PowerShell =>
      "pwsh -NoProfile -ExecutionPolicy Bypass -File \"" ++ scriptPath ++ "\" *>&1 | Out-Host"
  | .Bash => "bash \"" ++ scriptPath ++ "\" 2>&1"
  | .Zsh => "bash \"" ++ scriptPath ++ "\" 2>&1"
  | .Fish => "fish \"" ++ scriptPath ++ "\" 2>&1"
  | .Wsl =>
      "wsl bash -c \x27bash \"" ++ wslRewrite scriptPath ++ "\" 2>&1\x27"
  | .GitBash =>
      let gitBashPath := slashify scriptPath
      if executingFromShell = some ShellType.PowerShell then
        "& \"$env:ProgramFiles\\Git\\bin\\bash.exe\" -c \x27bash \"" ++ gitBashPath ++ "\" 2>&1\x27"
      else
        "bash \"" ++ gitBashPath ++ "\" 2>&1"
  | .Cmd => "cmd /c \"" ++ scriptPath ++ "\" 2>&1"
  | .Unknown => "bash \"" ++ scriptPath ++ "\" 2>&1"

/-- `getScriptExtension` (part_004 lines 440-455). -/
def getScriptExtension : ShellType → String
  | .PowerShell => ".ps1"
  | .Cmd => ".cmd"
  | .Fish => ".fish"
  | _ => ".sh"

/-- JS `s.startsWith(pre)` modelled on the character sequence. -/
def strStartsWith (s pre : String) : Bool :=
  pre.data.isPrefixOf s.data

/--
A live terminal as the pool sees it: its display name and the best-effort
working directory `terminal.shellIntegration?.cwd?.fsPath` (`none` when the
shell integration has not reported one).
-/
structure Terminal where
  name : String
  cwd : Option String
deriving DecidableEq, Repr

/--
The mutable module-level state of `scriptExecutor` (part_004 lines 98-102):
`activeTerminals` is a JS `Map` (insertion-ordered association list here)
and `busyTerminals` a JS `Set` (duplicate-free list here).
-/
structure PoolState where
  activeTerminals : List (String × Terminal)
  busyTerminals : List String
deriving DecidableEq, Repr

/-- JS `Set.add`: no duplicate, insertion at the end. -/
def busyAdd (tid : String) (busy : List String) : List String :=
  if tid ∈ busy then busy else busy ++ [tid]

/-- JS `Set.delete`: removes the element when present, no-op otherwise. -/
def busyRemove (tid : String) (busy : List String) : List String :=
  busy.filter (· ≠ tid)

/-- Association-list lookup mirroring JS `Map.get`. -/
def lookupList {α : Type} (l : List (String × α)) (k : String) : Option α :=
  (l.find? (fun p => p.1 == k)).map (·.2)

/--
The working-directory guard inside `findIdleTerminal` (part_004 lines
134-139).  JS `if (workingDirectory)` skips the check when the argument is
`undefined` or the empty string (both falsy); a terminal with unknown cwd
(`!terminalCwd`) never matches a requested directory.
-/
def cwdMatches (isWin : Bool) (wd : Option String) (t : Terminal) : Bool :=
  match wd with
  | none => true
  | some w =>
      if w = "" then true
      else
        match t.cwd with
        | some c => normalizePath isWin c == normalizePath isWin w
        | none => false

/--
`findIdleTerminal` (part_004 lines 126-144): first live terminal whose name
starts with the requested name, that is not busy, and whose working
directory matches when one is requested.
-/
def findIdleTerminal (isWin : Bool) (namePre : String) (wd : Option String)
    (st : PoolState) : Option (String × Terminal) :=
  st.activeTerminals.find? (fun e =>
    strStartsWith e.2.name namePre && !(decide (e.1 ∈ st.busyTerminals)) &&
      cwdMatches isWin wd e.2)

/-- The `Command` record tracked by the registry (part_004 lines 19-35).
The `execution` handle and the promise object are not data; the promise's
effect is modelled by `ExecOutcome.commandFinal` below. -/
structure Command where
  commandId : String
  terminalId : String
  closeOnTimeout : Bool
  startedAt : Nat
  output : String
  completed : Bool
  scriptPath : Option String
  keepScript : Bool
deriving DecidableEq, Repr

/-- `ScriptResult` (part_004 lines 7-13).  The optional `isBackground`
field is modelled as a `Bool` that is `false` when the source leaves it
absent (JS treats the absent field as falsy). -/
structure ScriptResult where
  stdout : String
  stderr : String
  exitCode : Int
  commandId : Option String
  isBackground : Bool
deriving DecidableEq, Repr

/--
Oracle resolving the foreground `Promise.race` (part_004 lines 341-350):
either the output stream drained completely first, or it errored after `k`
chunks, or the timeout fired first while `k` chunks had been accumulated.
-/
inductive StreamOutcome where
  | completed
  | errored (k : Nat)
  | timedOut (k : Nat)
deriving DecidableEq, Repr

/-- Without a `timeoutMs` no timer is started (part_004 lines 343-350), so
the race degenerates to awaiting the drain. -/
def effOutcome (timeoutMs : Option Nat) (o : StreamOutcome) : StreamOutcome :=
  match timeoutMs, o with
  | none, .timedOut _ => .completed
  | _, o => o

/-- `cmd.output += chunk` over a list of chunks, starting from the empty
string (part_004 lines 296-311). -/
def accumOutput (chunks : List String) : String :=
  chunks.foldl (· ++ ·) ""

/-- The output the background accumulator has accumulated once the stream
ends: everything, unless the stream itself errored after `k` chunks.  A
foreground timeout does not stop the accumulator. -/
def bgFinalOutput (chunks : List String) : StreamOutcome → String
  | .errored k => accumOutput (chunks.take k)
  | _ => accumOutput chunks

/-- The arguments of one `executeInTerminal` call (part_004 lines 219-228). -/
structure ExecInput where
  command : String
  terminalName : String
  isBackground : Bool
  timeoutMs : Option Nat
  closeOnTimeout : Bool
  scriptPath : Option String
  keepScript : Bool
  workingDirectory : Option String
deriving DecidableEq, Repr

/-- The non-deterministic environment of one call: the generated ids, the
clock, the output chunks the host stream produces, and the race oracle. -/
structure ExecEnv where
  freshTerminalId : String
  freshCommandId : String
  startNow : Nat
  chunks : List String
  outcome : StreamOutcome
deriving DecidableEq, Repr

/-- Everything observable about one `executeInTerminal` call: the chosen
terminal, the returned result, the pool state at the moment of return, the
registered command record and its state after the background accumulator
finished, whether an interrupt was sent, and whether the accumulator's
cleanup deletes the staged script file. -/
structure ExecOutcome where
  terminalId : String
  isNewTerminal : Bool
  result : ScriptResult
  pool : PoolState
  commandRegistered : Command
  commandFinal : Command
  interruptSent : Bool
  scriptDeletedByAccumulator : Bool
deriving DecidableEq, Repr

/--
`executeInTerminal` (part_004 lines 219-376).  Acquire an idle terminal or
create one (lines 233-258), mark it busy (line 261), dispatch and register
the command with its background accumulator (lines 277-312), then either
return immediately for background mode (lines 315-323) or race the drain
against the timeout (lines 325-375).  The `waitForShellIntegration` promise
in the source only ever resolves, so the catch branch at lines 268-275 is
unreachable and not modelled.
-/
def executeInTerminal (isWin : Bool) (st : PoolState) (inp : ExecInput)
    (env : ExecEnv) : ExecOutcome :=
  let acq : String × Terminal × Bool × PoolState :=
    match findIdleTerminal isWin inp.terminalName inp.workingDirectory st with
    | some (tid, t) => (tid, t, false, st)
    | none =>
        let t : Terminal :=
          { name := inp.terminalName ++ " (" ++ env.freshTerminalId ++ ")", cwd := none }
        (env.freshTerminalId, t, true,
          { st with activeTerminals := st.activeTerminals ++ [(env.freshTerminalId, t)] })
  match acq with
  | (tid, _, isNew, st1) =>
    let st2 : PoolState := { st1 with busyTerminals := busyAdd tid st1.busyTerminals }
    let cid := env.freshCommandId
    let cmd : Command :=
      { commandId := cid, terminalId := tid, closeOnTimeout := inp.closeOnTimeout,
        startedAt := env.startNow, output := "", completed := false,
        scriptPath := inp.scriptPath, keepScript := inp.keepScript }
    let cmdFinal : Command :=
      { cmd with output := bgFinalOutput env.chunks env.outcome, completed := true }
    let deleted := inp.scriptPath.isSome && !inp.keepScript
    if inp.isBackground then
      { terminalId := tid, isNewTerminal := isNew,
        result :=
          { stdout := "Background process started. Command ID: " ++ cid ++
              ". Use #getScriptOutput with the command ID to check output later.",
            stderr := "", exitCode := 0, commandId := some cid, isBackground := true },
        pool := st2, commandRegistered := cmd, commandFinal := cmdFinal,
        interruptSent := false, scriptDeletedByAccumulator := deleted }
    else
      let st3 : PoolState := { st2 with busyTerminals := busyRemove tid st2.busyTerminals }
      match effOutcome inp.timeoutMs env.outcome with
      | .timedOut k =>
          { terminalId := tid, isNewTerminal := isNew,
            result :=
              { stdout := accumOutput (env.chunks.take k) ++
                  "\n\n[Output truncated - command timed out or is still running." ++
                  (if inp.closeOnTimeout then " Command was interrupted (Ctrl+C)." else "") ++
                  " Command ID: " ++ cid ++ "]",
                stderr := "", exitCode := if inp.closeOnTimeout then 1 else 0,
                commandId := some cid, isBackground := false },
            pool := st3, commandRegistered := cmd, commandFinal := cmdFinal,
            interruptSent := inp.closeOnTimeout, scriptDeletedByAccumulator := deleted }
      | .errored k =>
          { terminalId := tid, isNewTerminal := isNew,
            result :=
              { stdout := accumOutput (env.chunks.take k), stderr := "", exitCode := 0,
                commandId := some cid, isBackground := false },
            pool := st3, commandRegistered := cmd, commandFinal := cmdFinal,
            interruptSent := false, scriptDeletedByAccumulator := deleted }
      | .completed =>
          { terminalId := tid, isNewTerminal := isNew,
            result :=
              { stdout := accumOutput env.chunks, stderr := "", exitCode := 0,
                commandId := some cid, isBackground := false },
            pool := st3, commandRegistered := cmd, commandFinal := cmdFinal,
            interruptSent := false, scriptDeletedByAccumulator := deleted }

/--
`executeScript` (part_004 lines 470-488): pick the effective shell type,
derive the terminal name from it, build the invocation (the invoking shell
is the ambient default shell), and delegate to `executeInTerminal`.  The
ambient `getDefaultShellType()` is the explicit parameter `defaultShell`.
-/
def executeScript (isWin : Bool) (st : PoolState) (scriptPath : String)
    (shellType : Option ShellType) (timeoutMs : Option Nat)
    (isBackground closeOnTimeout keepScript : Bool)
    (workingDirectory : Option String) (defaultShell : ShellType)
    (env : ExecEnv) : ExecOutcome :=
  let effectiveShellType := shellType.getD defaultShell
  let terminalName := "Script Runner (" ++ effectiveShellType.str ++ ")"
  let executingFromShell := defaultShell
  let command := buildScriptCommand scriptPath effectiveShellType (some executingFromShell)
  executeInTerminal isWin st
    { command := command, terminalName := terminalName, isBackground := isBackground,
      timeoutMs := timeoutMs, closeOnTimeout := closeOnTimeout,
      scriptPath := some scriptPath, keepScript := keepScript,
      workingDirectory := workingDirectory } env

/-- `executePowerShellScript` (part_004 lines 504-511).  The source binder
for the second argument is named with a leading underscore and is unused. -/
def executePowerShellScript (isWin : Bool) (st : PoolState) (scriptPath : String)
    (workingDirectoryUnused : Option String) (timeoutMs : Option Nat)
    (isBackground : Bool) (defaultShell : ShellType) (env : ExecEnv) : ExecOutcome :=
  executeScript isWin st scriptPath (some .PowerShell) timeoutMs isBackground
    false false none defaultShell env

/-- `executeWslScript` (part_004 lines 522-529). -/
def executeWslScript (isWin : Bool) (st : PoolState) (scriptPath : String)
    (workingDirectoryUnused : Option String) (timeoutMs : Option Nat)
    (isBackground : Bool) (defaultShell : ShellType) (env : ExecEnv) : ExecOutcome :=
  executeScript isWin st scriptPath (some .Wsl) timeoutMs isBackground
    false false none defaultShell env

/-- `executeGitBashScript` (part_004 lines 539-546). -/
def executeGitBashScript (isWin : Bool) (st : PoolState) (scriptPath : String)
    (workingDirectoryUnused : Option String) (timeoutMs : Option Nat)
    (isBackground : Bool) (defaultShell : ShellType) (env : ExecEnv) : ExecOutcome :=
  executeScript isWin st scriptPath (some .GitBash) timeoutMs isBackground
    false false none defaultShell env

/-- `executeBashScript` (part_004 lines 553-560). -/
def executeBashScript (isWin : Bool) (st : PoolState) (scriptPath : String)
    (workingDirectoryUnused : Option String) (timeoutMs : Option Nat)
    (isBackground : Bool) (defaultShell : ShellType) (env : ExecEnv) : ExecOutcome :=
  executeScript isWin st scriptPath (some .Bash) timeoutMs isBackground
    false false none defaultShell env

/-- The `shell` input values accepted by `RunScriptTool` (runScript.ts
lines 17-26). -/
inductive ShellInput where
  | powershell
  | bash
  | wsl
  | gitbash
  | zsh
  | fish
deriving DecidableEq, Repr

/-- `shellInputToType` (runScript.ts lines 19-26). -/
def shellInputToType : ShellInput → ShellType
  | .powershell => .PowerShell
  | .bash => .Bash
  | .wsl => .Wsl
  | .gitbash => .GitBash
  | .zsh => .Zsh
  | .fish => .Fish

/-- JS `script.replace(/\r\n/g, '\n')` on the character sequence. -/
def crlfToLfChars : List Char → List Char
  | [] => []
  | '\r' :: '\n' :: rest => '\n' :: crlfToLfChars rest
  | c :: rest => c :: crlfToLfChars rest

/-- JS `script.replace(/\r\n/g, '\n')`. -/
def crlfToLf (s : String) : String :=
  String.mk (crlfToLfChars s.data)

/-- The input record of `RunScriptTool.invoke` (runScript.ts lines 46-54). -/
structure RunScriptInput where
  script : String
  shell : Option ShellInput
  workingDirectory : Option String
  timeoutMs : Option Nat
  keepScript : Option Bool
  isBackground : Option Bool
  closeOnTimeout : Option Bool
deriving DecidableEq, Repr

/-- `join(tempDir, 'script-' + scriptId + extension)` (part_004 lines
166-169), with the generated id supplied by the environment. -/
def generateScriptPath (tempDir uuid extension : String) : String :=
  tempDir ++ "/script-" ++ uuid ++ extension

/-- Environment of one `RunScriptTool.invoke` call: the temp directory, the
generated script id, and the execution environment passed down. -/
structure ToolEnv where
  tempDir : String
  scriptUuid : String
  exec : ExecEnv
deriving DecidableEq, Repr

/-- Observables of one `RunScriptTool.invoke` call.
`toolDeletedScriptOnReturn` is the cleanup at runScript.ts lines 90-93,
performed as soon as `executeScript` returns;
`scriptExistsAfterCompletion` says whether the staged file still exists
once the command has truly finished (neither the tool-level cleanup nor
the accumulator's completion-time cleanup removed it — `unlink` failures
on an already-deleted file are swallowed). -/
structure InvokeOutcome where
  scriptPath : String
  processedScript : String
  execOutcome : ExecOutcome
  toolDeletedScriptOnReturn : Bool
  scriptExistsAfterCompletion : Bool
deriving DecidableEq, Repr

/--
`RunScriptTool.invoke` (runScript.ts lines 57-105): defaults, script
staging with shebang handling, then the call
`executeScript(scriptPath, shellType, timeoutMs, isBackground, closeOnTimeout)`
at line 88 — which passes neither `keepScript` nor `workingDirectory`, so
both take their defaults (`false` and `undefined`) inside `executeScript` —
followed by the immediate cleanup when `!keepScript && !isBackground`.
-/
def runScriptInvoke (isWin : Bool) (st : PoolState) (inp : RunScriptInput)
    (defaultShell : ShellType) (env : ToolEnv) : InvokeOutcome :=
  let shell := inp.shell.getD .powershell
  let keepScript := inp.keepScript.getD false
  let isBackground := inp.isBackground.getD false
  let closeOnTimeout := inp.closeOnTimeout.getD false
  let shellType := shellInputToType shell
  let extension := getScriptExtension shellType
  let scriptPath := generateScriptPath env.tempDir env.scriptUuid extension
  let processedScript :=
    if shell = ShellInput.powershell then inp.script
    else
      let lf := crlfToLf inp.script
      if strStartsWith lf "#!" then lf
      else (if shell = ShellInput.fish then "#!/usr/bin/env fish"
            else "#!/bin/bash\nset -e") ++ "\n" ++ lf
  let execOutcome := executeScript isWin st scriptPath (some shellType) inp.timeoutMs
      isBackground closeOnTimeout false none defaultShell env.exec
  let toolDeleted := !keepScript && !isBackground
  { scriptPath := scriptPath, processedScript := processedScript,
    execOutcome := execOutcome, toolDeletedScriptOnReturn := toolDeleted,
    scriptExistsAfterCompletion :=
      !toolDeleted && !execOutcome.scriptDeletedByAccumulator }

/--
`GetScriptOutputTool.invoke` (runBashScript.ts lines 93-131): look up the
command, then its terminal, and render the status/output text.  The
`waitForCompletion` semantics is in the registry snapshot the caller
passes: with `waitForCompletion=true` the snapshot is the one after the
command's `completionPromise` resolved.
-/
def getScriptOutputInvoke (registry : List (String × Command))
    (terminals : List (String × Terminal)) (commandId : String) : String :=
  match lookupList registry commandId with
  | none =>
      "Command with ID \"" ++ commandId ++
        "\" not found. It may have expired or the ID is invalid."
  | some cmd =>
      match lookupList terminals cmd.terminalId with
      | none =>
          "Terminal for command \"" ++ commandId ++
            "\" not found. It may have been closed."
      | some t =>
          "Terminal: " ++ t.name ++ "\nCommand ID: " ++ commandId ++
            "\nStatus: " ++ (if cmd.completed then "completed" else "running") ++
            "\n\nOutput:\n" ++ (if cmd.output == "" then "(no output)" else cmd.output)

/--
The busy/live bookkeeping of the pool projected to terminal ids, as a
transition system.  `acquire` is the find-or-create path of
`executeInTerminal` (part_004 lines 233-261): a found terminal is already
in the live map, a created one is inserted (line 248) before the busy mark
(line 261).  `release` is `busyTerminals.delete` (lines 269, 353, 361).
`destroy` is the `onDidCloseTerminal` listener (lines 251-257), which
removes the id from the live map and the busy set together.
-/
inductive PoolEvent where
  | acquire (tid : String)
  | release (tid : String)
  | destroy (tid : String)
deriving DecidableEq, Repr

/-- Pool state projected to ids. -/
structure PoolIds where
  live : List String
  busy : List String
deriving DecidableEq, Repr

/-- One transition of the id-projected pool. -/
def poolStep (s : PoolIds) : PoolEvent → PoolIds
  | .acquire tid =>
      { live := if s.live.contains tid then s.live else s.live ++ [tid],
        busy := busyAdd tid s.busy }
  | .release tid => { s with busy := busyRemove tid s.busy }
  | .destroy tid => { live := s.live.filter (· ≠ tid), busy := busyRemove tid s.busy }

/-- Run a trace of pool events from the empty pool. -/
def poolRun (tr : List PoolEvent) : PoolIds :=
  tr.foldl poolStep { live := [], busy := [] }

/-- Fold tracking whether a command is dispatched-and-unreleased in `tid`,
from an arbitrary starting value (generalisation used for induction). -/
def dnrFold (tid : String) (b : Bool) (tr : List PoolEvent) : Bool :=
  tr.foldl (fun b e =>
    match e with
    | .acquire t => if t = tid then true else b
    | .release t => if t = tid then false else b
    | .destroy t => if t = tid then false else b) b

/-- Whether, after the trace, a command has been dispatched into `tid` and
not yet released (terminal destruction also clears the dispatch, exactly as
the close listener clears the busy set). -/
def dispatchedNotReleased (tid : String) (tr : List PoolEvent) : Bool :=
  dnrFold tid false tr

/--
The state of the command's background accumulator (part_004 lines 296-311)
after `i` mutation events: the first `chunks.length` events append one
chunk each to `output`; the final event (stream end or error) sets
`completed := true`.  Index `i > chunks.length` is the terminal state.
-/
def accumState (chunks : List String) (i : Nat) : String × Bool :=
  if i ≤ chunks.length then (accumOutput (chunks.take i), false)
  else (accumOutput chunks, true)

/-! ### Helper lemmas -/

theorem toNat_ofNat_of_valid (m : Nat) (h : m.isValidChar) : (Char.ofNat m).toNat = m := by
  simp [Char.ofNat, h, Char.toNat, Char.ofNatAux, UInt32.toNat]

theorem toLower_ne_backslash (c : Char) (h : c.isUpper = true) : c.toLower ≠ '\\' := by
  intro he
  have hn : 65 ≤ c.toNat ∧ c.toNat ≤ 90 := by
    simp [Char.isUpper] at h
    obtain ⟨h1, h2⟩ := h
    exact ⟨by exact_mod_cast h1, by exact_mod_cast h2⟩
  have hval : (c.toNat + 32).isValidChar := by left; omega
  have hl : c.toLower.toNat = c.toNat + 32 := by
    simp [Char.toLower, hn.1, hn.2, toNat_ofNat_of_valid _ hval]
  rw [he] at hl
  have : (92 : Nat) = c.toNat + 32 := hl
  omega

theorem mem_busyAdd {t tid : String} {l : List String} :
    tid ∈ busyAdd t l ↔ tid = t ∨ tid ∈ l := by
  unfold busyAdd
  split
  · rename_i h
    constructor
    · exact Or.inr
    · rintro (rfl | hm)
      · exact h
      · exact hm
  · simp [List.mem_append, or_comm]

theorem mem_busyRemove {t tid : String} {l : List String} :
    tid ∈ busyRemove t l ↔ tid ∈ l ∧ tid ≠ t := by
  unfold busyRemove
  simp [List.mem_filter]

theorem busyRemove_of_not_mem {tid : String} {l : List String} (h : tid ∉ l) :
    busyRemove tid l = l := by
  unfold busyRemove
  apply List.filter_eq_self.mpr
  intro a ha
  simp only [ne_eq, decide_eq_true_eq]
  rintro rfl
  exact h ha

theorem busyRemove_busyAdd {tid : String} {l : List String} (h : tid ∉ l) :
    busyRemove tid (busyAdd tid l) = l := by
  have h1 : busyRemove tid l = l := busyRemove_of_not_mem h
  have h2 : busyRemove tid [tid] = [] := by simp [busyRemove]
  unfold busyAdd
  rw [if_neg h]
  show busyRemove tid (l ++ [tid]) = l
  unfold busyRemove at h1 h2 ⊢
  rw [List.filter_append, h1, h2, List.append_nil]

theorem strStartsWith_of_data (a s : String) (l : List Char) (h : s.data = a.data ++ l) :
    strStartsWith s a = true := by
  unfold strStartsWith
  rw [h]
  exact List.isPrefixOf_iff_prefix.mpr (List.prefix_append _ _)

theorem mem_poolStep_busy {tid : String} {s : PoolIds} {e : PoolEvent} :
    tid ∈ (poolStep s e).busy ↔
      (match e with
       | .acquire t => tid = t ∨ tid ∈ s.busy
       | .release t => tid ∈ s.busy ∧ tid ≠ t
       | .destroy t => tid ∈ s.busy ∧ tid ≠ t) := by
  cases e <;> simp [poolStep, mem_busyAdd, mem_busyRemove]

theorem decide_poolStep_busy (tid : String) (s : PoolIds) (e : PoolEvent) :
    decide (tid ∈ (poolStep s e).busy) =
      (match e with
       | .acquire t => if t = tid then true else decide (tid ∈ s.busy)
       | .release t => if t = tid then false else decide (tid ∈ s.busy)
       | .destroy t => if t = tid then false else decide (tid ∈ s.busy)) := by
  cases e with
  | acquire t =>
      by_cases h : t = tid
      · subst h
        simp [mem_poolStep_busy]
      · have h2 : tid ≠ t := fun hh => h hh.symm
        simp only [if_neg h]
        rw [decide_eq_decide]
        simp [mem_poolStep_busy, h2]
  | release t =>
      by_cases h : t = tid
      · subst h
        simp [mem_poolStep_busy]
      · have h2 : tid ≠ t := fun hh => h hh.symm
        simp only [if_neg h]
        rw [decide_eq_decide]
        simp [mem_poolStep_busy, h2]
  | destroy t =>
      by_cases h : t = tid
      · subst h
        simp [mem_poolStep_busy]
      · have h2 : tid ≠ t := fun hh => h hh.symm
        simp only [if_neg h]
        rw [decide_eq_decide]
        simp [mem_poolStep_busy, h2]

theorem busy_foldl_spec (tr : List PoolEvent) (s : PoolIds) (tid : String) :
    tid ∈ (tr.foldl poolStep s).busy ↔
      dnrFold tid (decide (tid ∈ s.busy)) tr = true := by
  induction tr generalizing s with
  | nil => simp [dnrFold]
  | cons e tr ih =>
      rw [List.foldl_cons]
      rw [ih (poolStep s e)]
      unfold dnrFold
      rw [List.foldl_cons, decide_poolStep_busy]

theorem poolStep_busy_subset_live (s : PoolIds) (e : PoolEvent)
    (h : ∀ tid ∈ s.busy, tid ∈ s.live) :
    ∀ tid ∈ (poolStep s e).busy, tid ∈ (poolStep s e).live := by
  intro tid hmem
  cases e with
  | acquire t =>
      rcases mem_poolStep_busy.mp hmem with rfl | hb
      · by_cases hl : tid ∈ s.live <;> simp [poolStep, hl]
      · have hlive := h tid hb
        by_cases hl : t ∈ s.live <;> simp [poolStep, hl, hlive]
  | release t =>
      exact h tid (mem_poolStep_busy.mp hmem).1
  | destroy t =>
      have hm := mem_poolStep_busy.mp hmem
      simp only [poolStep, List.mem_filter]
      exact ⟨h tid hm.1, by simpa using hm.2⟩

theorem poolRun_busy_subset_live (tr : List PoolEvent) :
    ∀ tid ∈ (poolRun tr).busy, tid ∈ (poolRun tr).live := by
  suffices h : ∀ (s : PoolIds), (∀ tid ∈ s.busy, tid ∈ s.live) →
      ∀ tid ∈ (tr.foldl poolStep s).busy, tid ∈ (tr.foldl poolStep s).live by
    exact h { live := [], busy := [] } (by simp)
  induction tr with
  | nil => intro s hs; exact hs
  | cons e tr ih =>
      intro s hs
      exact ih (poolStep s e) (poolStep_busy_subset_live s e hs)

/-! ### Claim theorems -/

/--
C1 (counterexample): the claim says a successful background dispatch
releases the session-busy flag immediately.  It does not: at the concrete
input below `executeInTerminal` returns `isBackground: true` with a
command id, yet the acquired terminal is still in the busy set when the
call returns — the background branch (part_004 lines 315-323) performs no
`busyTerminals.delete`.
-/
theorem C1_counterexample_busy_not_released :
    (executeInTerminal false { activeTerminals := [], busyTerminals := [] }
        { command := "run", terminalName := "Script Runner (pwsh)", isBackground := true,
          timeoutMs := none, closeOnTimeout := false, scriptPath := none,
          keepScript := false, workingDirectory := none }
        { freshTerminalId := "t1", freshCommandId := "cmd-1", startNow := 0,
          chunks := [], outcome := .completed }).result.isBackground = true ∧
    (executeInTerminal false { activeTerminals := [], busyTerminals := [] }
        { command := "run", terminalName := "Script Runner (pwsh)", isBackground := true,
          timeoutMs := none, closeOnTimeout := false, scriptPath := none,
          keepScript := false, workingDirectory := none }
        { freshTerminalId := "t1", freshCommandId := "cmd-1", startNow := 0,
          chunks := [], outcome := .completed }).pool.busyTerminals = ["t1"] := by
  exact ⟨rfl, rfl⟩

/--
C1 (amended): when a script is executed with `isBackground=true` and
dispatch succeeds, `executeInTerminal` returns an `ExecutionResult` with
`isBackground: true`, a `commandId` and `exitCode 0` without waiting for
any output (the returned result does not depend on the stream chunks or on
the race oracle) — but the session-busy flag is NOT released: the terminal
is still in the busy set when the call returns.
-/
theorem C1_background_return (isWin : Bool) (st : PoolState) (inp : ExecInput)
    (env : ExecEnv) (hbg : inp.isBackground = true) :
    (executeInTerminal isWin st inp env).result.isBackground = true ∧
    (executeInTerminal isWin st inp env).result.commandId = some env.freshCommandId ∧
    (executeInTerminal isWin st inp env).result.exitCode = 0 ∧
    (executeInTerminal isWin st inp env).terminalId ∈
      (executeInTerminal isWin st inp env).pool.busyTerminals ∧
    (∀ (chunks : List String) (o : StreamOutcome),
      (executeInTerminal isWin st inp
          { env with chunks := chunks, outcome := o }).result =
        (executeInTerminal isWin st inp env).result) := by
  cases hf : findIdleTerminal isWin inp.terminalName inp.workingDirectory st with
  | none =>
      simp only [executeInTerminal, hf, hbg, if_true]
      exact ⟨trivial, trivial, trivial, mem_busyAdd.mpr (Or.inl rfl), fun _ _ => trivial⟩
  | some p =>
      obtain ⟨tid, t⟩ := p
      simp only [executeInTerminal, hf, hbg, if_true]
      exact ⟨trivial, trivial, trivial, mem_busyAdd.mpr (Or.inl rfl), fun _ _ => trivial⟩

/-- C1 witness: the amended theorem applied at a concrete input. -/
theorem C1_background_return_witness :
    (executeInTerminal false { activeTerminals := [], busyTerminals := [] }
        { command := "run", terminalName := "Script Runner (pwsh)", isBackground := true,
          timeoutMs := none, closeOnTimeout := false, scriptPath := none,
          keepScript := false, workingDirectory := none }
        { freshTerminalId := "t7", freshCommandId := "cmd-7", startNow := 3,
          chunks := ["x"], outcome := .completed }).result.isBackground = true ∧
    (executeInTerminal false { activeTerminals := [], busyTerminals := [] }
        { command := "run", terminalName := "Script Runner (pwsh)", isBackground := true,
          timeoutMs := none, closeOnTimeout := false, scriptPath := none,
          keepScript := false, workingDirectory := none }
        { freshTerminalId := "t7", freshCommandId := "cmd-7", startNow := 3,
          chunks := ["x"], outcome := .completed }).result.commandId = some "cmd-7" ∧
    (executeInTerminal false { activeTerminals := [], busyTerminals := [] }
        { command := "run", terminalName := "Script Runner (pwsh)", isBackground := true,
          timeoutMs := none, closeOnTimeout := false, scriptPath := none,
          keepScript := false, workingDirectory := none }
        { freshTerminalId := "t7", freshCommandId := "cmd-7", startNow := 3,
          chunks := ["x"], outcome := .completed }).result.exitCode = 0 ∧
    (executeInTerminal false { activeTerminals := [], busyTerminals := [] }
        { command := "run", terminalName := "Script Runner (pwsh)", isBackground := true,
          timeoutMs := none, closeOnTimeout := false, scriptPath := none,
          keepScript := false, workingDirectory := none }
        { freshTerminalId := "t7", freshCommandId := "cmd-7", startNow := 3,
          chunks := ["x"], outcome := .completed }).terminalId ∈
      (executeInTerminal false { activeTerminals := [], busyTerminals := [] }
        { command := "run", terminalName := "Script Runner (pwsh)", isBackground := true,
          timeoutMs := none, closeOnTimeout := false, scriptPath := none,
          keepScript := false, workingDirectory := none }
        { freshTerminalId := "t7", freshCommandId := "cmd-7", startNow := 3,
          chunks := ["x"], outcome := .completed }).pool.busyTerminals := by
  have h := C1_background_return false { activeTerminals := [], busyTerminals := [] }
    { command := "run", terminalName := "Script Runner (pwsh)", isBackground := true,
      timeoutMs := none, closeOnTimeout := false, scriptPath := none,
      keepScript := false, workingDirectory := none }
    { freshTerminalId := "t7", freshCommandId := "cmd-7", startNow := 3,
      chunks := ["x"], outcome := .completed } rfl
  exact ⟨h.1, h.2.1, h.2.2.1, h.2.2.2.1⟩

/--
C3 (code bug, evaluated at the failing input): running a script through
`RunScriptTool.invoke` with `keepScript=true` (foreground, no timeout): the
tool-level cleanup is skipped, but the call at runScript.ts line 88 does
not forward `keepScript` to `executeScript`, so the command is registered
with `keepScript = false` and the background accumulator deletes the temp
script file as soon as the command completes — the file does NOT exist
after completion, contrary to the claim (and to the tool's own
"Script saved at: …" output for `keepScript=true`).
-/
theorem C3_keepScript_not_forwarded :
    (runScriptInvoke false { activeTerminals := [], busyTerminals := [] }
        { script := "echo hi", shell := some .powershell, workingDirectory := none,
          timeoutMs := none, keepScript := some true, isBackground := some false,
          closeOnTimeout := none }
        ShellType.PowerShell
        { tempDir := "/tmp/script-runner-extension", scriptUuid := "u1",
          exec := { freshTerminalId := "t1", freshCommandId := "cmd-1", startNow := 0,
                    chunks := ["hi\n"], outcome := .completed } }).toolDeletedScriptOnReturn
        = false ∧
    (runScriptInvoke false { activeTerminals := [], busyTerminals := [] }
        { script := "echo hi", shell := some .powershell, workingDirectory := none,
          timeoutMs := none, keepScript := some true, isBackground := some false,
          closeOnTimeout := none }
        ShellType.PowerShell
        { tempDir := "/tmp/script-runner-extension", scriptUuid := "u1",
          exec := { freshTerminalId := "t1", freshCommandId := "cmd-1", startNow := 0,
                    chunks := ["hi\n"], outcome := .completed } }).execOutcome.commandRegistered.keepScript = false ∧
    (runScriptInvoke false { activeTerminals := [], busyTerminals := [] }
        { script := "echo hi", shell := some .powershell, workingDirectory := none,
          timeoutMs := none, keepScript := some true, isBackground := some false,
          closeOnTimeout := none }
        ShellType.PowerShell
        { tempDir := "/tmp/script-runner-extension", scriptUuid := "u1",
          exec := { freshTerminalId := "t1", freshCommandId := "cmd-1", startNow := 0,
                    chunks := ["hi\n"], outcome := .completed } }).execOutcome.scriptDeletedByAccumulator = true ∧
    (runScriptInvoke false { activeTerminals := [], busyTerminals := [] }
        { script := "echo hi", shell := some .powershell, workingDirectory := none,
          timeoutMs := none, keepScript := some true, isBackground := some false,
          closeOnTimeout := none }
        ShellType.PowerShell
        { tempDir := "/tmp/script-runner-extension", scriptUuid := "u1",
          exec := { freshTerminalId := "t1", freshCommandId := "cmd-1", startNow := 0,
                    chunks := ["hi\n"], outcome := .completed } }).scriptExistsAfterCompletion
        = false := by
  exact ⟨rfl, rfl, rfl, rfl⟩

/--
C5: for every foreground execution that hits the timeout before the
stream ends, the returned `exitCode` is 1 when `closeOnTimeout=true` (and
an interrupt is sent into the terminal) and 0 when `closeOnTimeout=false`
(no interrupt); a foreground execution whose stream completes before the
timeout always returns `exitCode 0` with no interrupt.
-/
theorem C5_timeout_exit_codes :
    (∀ (isWin : Bool) (st : PoolState) (inp : ExecInput) (env : ExecEnv) (t k : Nat),
        inp.isBackground = false → inp.timeoutMs = some t →
        env.outcome = .timedOut k →
        (executeInTerminal isWin st inp env).result.exitCode =
            (if inp.closeOnTimeout then 1 else 0) ∧
          (executeInTerminal isWin st inp env).interruptSent = inp.closeOnTimeout) ∧
    (∀ (isWin : Bool) (st : PoolState) (inp : ExecInput) (env : ExecEnv),
        inp.isBackground = false → env.outcome = .completed →
        (executeInTerminal isWin st inp env).result.exitCode = 0 ∧
          (executeInTerminal isWin st inp env).interruptSent = false) := by
  constructor
  · intro isWin st inp env t k hbg ht ho
    cases hf : findIdleTerminal isWin inp.terminalName inp.workingDirectory st with
    | none =>
        simp only [executeInTerminal, hf, hbg, ht, ho, effOutcome, Bool.false_eq_true,
          if_false]
        exact ⟨trivial, trivial⟩
    | some p =>
        obtain ⟨tid, tr⟩ := p
        simp only [executeInTerminal, hf, hbg, ht, ho, effOutcome, Bool.false_eq_true,
          if_false]
        exact ⟨trivial, trivial⟩
  · intro isWin st inp env hbg ho
    cases hf : findIdleTerminal isWin inp.terminalName inp.workingDirectory st with
    | none =>
        cases ht : inp.timeoutMs with
        | none =>
            simp only [executeInTerminal, hf, hbg, ht, ho, effOutcome, Bool.false_eq_true,
              if_false]
            exact ⟨trivial, trivial⟩
        | some t =>
            simp only [executeInTerminal, hf, hbg, ht, ho, effOutcome, Bool.false_eq_true,
              if_false]
            exact ⟨trivial, trivial⟩
    | some p =>
        obtain ⟨tid, tr⟩ := p
        cases ht : inp.timeoutMs with
        | none =>
            simp only [executeInTerminal, hf, hbg, ht, ho, effOutcome, Bool.false_eq_true,
              if_false]
            exact ⟨trivial, trivial⟩
        | some t =>
            simp only [executeInTerminal, hf, hbg, ht, ho, effOutcome, Bool.false_eq_true,
              if_false]
            exact ⟨trivial, trivial⟩

/-- C5 witness: the exit-code theorem applied at concrete timed-out and
completed runs. -/
theorem C5_timeout_exit_codes_witness :
    ((executeInTerminal false { activeTerminals := [], busyTerminals := [] }
        { command := "run", terminalName := "Script Runner (pwsh)", isBackground := false,
          timeoutMs := some 100, closeOnTimeout := true, scriptPath := none,
          keepScript := false, workingDirectory := none }
        { freshTerminalId := "t1", freshCommandId := "cmd-1", startNow := 0,
          chunks := ["a", "b"], outcome := .timedOut 1 }).result.exitCode =
        (if true then 1 else 0) ∧
      (executeInTerminal false { activeTerminals := [], busyTerminals := [] }
        { command := "run", terminalName := "Script Runner (pwsh)", isBackground := false,
          timeoutMs := some 100, closeOnTimeout := true, scriptPath := none,
          keepScript := false, workingDirectory := none }
        { freshTerminalId := "t1", freshCommandId := "cmd-1", startNow := 0,
          chunks := ["a", "b"], outcome := .timedOut 1 }).interruptSent = true) ∧
    ((executeInTerminal false { activeTerminals := [], busyTerminals := [] }
        { command := "run", terminalName := "Script Runner (pwsh)", isBackground := false,
          timeoutMs := some 100, closeOnTimeout := false, scriptPath := none,
          keepScript := false, workingDirectory := none }
        { freshTerminalId := "t1", freshCommandId := "cmd-1", startNow := 0,
          chunks := ["a", "b"], outcome := .completed }).result.exitCode = 0 ∧
      (executeInTerminal false { activeTerminals := [], busyTerminals := [] }
        { command := "run", terminalName := "Script Runner (pwsh)", isBackground := false,
          timeoutMs := some 100, closeOnTimeout := false, scriptPath := none,
          keepScript := false, workingDirectory := none }
        { freshTerminalId := "t1", freshCommandId := "cmd-1", startNow := 0,
          chunks := ["a", "b"], outcome := .completed }).interruptSent = false) := by
  constructor
  · exact C5_timeout_exit_codes.1 false _ _ _ 100 1 rfl rfl rfl
  · exact C5_timeout_exit_codes.2 false _ _ _ rfl rfl

/--
C10: two invocations of `RunScriptTool.invoke` that differ only in the
`workingDirectory` input produce identical outcomes (the tool destructures
`workingDirectory` but never passes it on), and each of the
`executePowerShellScript` / `executeWslScript` / `executeGitBashScript` /
`executeBashScript` wrappers ignores its working-directory parameter, so
the input influences neither terminal creation, nor terminal matching, nor
the built invocation string on these paths.
-/
theorem C10_workingDirectory_noninterference :
    (∀ (isWin : Bool) (st : PoolState) (inp : RunScriptInput) (d : ShellType)
        (env : ToolEnv) (w w2 : Option String),
        runScriptInvoke isWin st { inp with workingDirectory := w } d env =
          runScriptInvoke isWin st { inp with workingDirectory := w2 } d env) ∧
    (∀ (isWin : Bool) (st : PoolState) (p : String) (w w2 : Option String)
        (t : Option Nat) (bg : Bool) (d : ShellType) (env : ExecEnv),
        executePowerShellScript isWin st p w t bg d env =
          executePowerShellScript isWin st p w2 t bg d env) ∧
    (∀ (isWin : Bool) (st : PoolState) (p : String) (w w2 : Option String)
        (t : Option Nat) (bg : Bool) (d : ShellType) (env : ExecEnv),
        executeWslScript isWin st p w t bg d env =
          executeWslScript isWin st p w2 t bg d env) ∧
    (∀ (isWin : Bool) (st : PoolState) (p : String) (w w2 : Option String)
        (t : Option Nat) (bg : Bool) (d : ShellType) (env : ExecEnv),
        executeGitBashScript isWin st p w t bg d env =
          executeGitBashScript isWin st p w2 t bg d env) ∧
    (∀ (isWin : Bool) (st : PoolState) (p : String) (w w2 : Option String)
        (t : Option Nat) (bg : Bool) (d : ShellType) (env : ExecEnv),
        executeBashScript isWin st p w t bg d env =
          executeBashScript isWin st p w2 t bg d env) := by
  refine ⟨?_, ?_, ?_, ?_, ?_⟩ <;> intros <;> rfl

/--
C2: over every sequence of pool events, (a) a terminal id is in the busy
set iff a command has been dispatched into it and not yet released (with
terminal destruction clearing the dispatch the same way the close listener
clears the busy set); (b) releasing a terminal that is not busy is a
no-op on the whole state; (c) after any trace — destructions included —
every id in the busy set is also in the live map (the close listener
removes the id from both together, so the busy set never holds an id that
is gone from the live map).
-/
theorem C2_busy_set_invariants :
    (∀ (tr : List PoolEvent) (tid : String),
        tid ∈ (poolRun tr).busy ↔ dispatchedNotReleased tid tr = true) ∧
    (∀ (s : PoolIds) (tid : String), tid ∉ s.busy → poolStep s (.release tid) = s) ∧
    (∀ (tr : List PoolEvent) (tid : String),
        tid ∈ (poolRun tr).busy → tid ∈ (poolRun tr).live) := by
  refine ⟨?_, ?_, poolRun_busy_subset_live⟩
  · intro tr tid
    have h := busy_foldl_spec tr { live := [], busy := [] } tid
    simpa [dispatchedNotReleased] using h
  · intro s tid h
    show { s with busy := busyRemove tid s.busy } = s
    rw [busyRemove_of_not_mem h]

/-- C2 witness: the invariants applied to a concrete trace (acquire,
release, re-acquire, destroy) and a concrete not-busy release. -/
theorem C2_busy_set_invariants_witness :
    (("a" ∈ (poolRun [.acquire "a", .release "a", .acquire "a"]).busy) ↔
        dispatchedNotReleased "a" [.acquire "a", .release "a", .acquire "a"] = true) ∧
    poolStep { live := ["a"], busy := ["a"] } (.release "b") =
      { live := ["a"], busy := ["a"] } ∧
    "a" ∈ (poolRun [.acquire "a", .release "a", .acquire "a"]).live :=
  ⟨C2_busy_set_invariants.1 [.acquire "a", .release "a", .acquire "a"] "a",
   C2_busy_set_invariants.2.1 { live := ["a"], busy := ["a"] } "b" (by decide),
   C2_busy_set_invariants.2.2 [.acquire "a", .release "a", .acquire "a"] "a" (by decide)⟩

/--
C6: `findIdleTerminal` with a (non-empty) working-directory argument only
returns a terminal that is not busy, whose display name starts with the
given name, and whose KNOWN working directory equals the requested one
under `normalizePath` (backslashes to slashes, one trailing separator
stripped, lowercasing on win32 only); and when every idle name-matching
terminal fails the working-directory match, `executeInTerminal` creates a
brand-new terminal instead of reusing a mismatched idle one.
-/
theorem C6_working_directory_isolation :
    (∀ (isWin : Bool) (namePre w : String) (st : PoolState) (tid : String) (t : Terminal),
        w ≠ "" →
        findIdleTerminal isWin namePre (some w) st = some (tid, t) →
        strStartsWith t.name namePre = true ∧ tid ∉ st.busyTerminals ∧
          ∃ c, t.cwd = some c ∧ normalizePath isWin c = normalizePath isWin w) ∧
    (∀ (isWin : Bool) (st : PoolState) (inp : ExecInput) (env : ExecEnv) (w : String),
        inp.workingDirectory = some w →
        (∀ p ∈ st.activeTerminals,
            strStartsWith p.2.name inp.terminalName = true →
            p.1 ∉ st.busyTerminals →
            cwdMatches isWin (some w) p.2 = false) →
        (executeInTerminal isWin st inp env).isNewTerminal = true ∧
          (executeInTerminal isWin st inp env).terminalId = env.freshTerminalId) := by
  constructor
  · intro isWin namePre w st tid t hw hfind
    unfold findIdleTerminal at hfind
    have hp := List.find?_some hfind
    simp only [Bool.and_eq_true] at hp
    obtain ⟨⟨hA, hB⟩, hC⟩ := hp
    have hBusy : tid ∉ st.busyTerminals := by simpa using hB
    refine ⟨hA, hBusy, ?_⟩
    simp only [cwdMatches] at hC
    rw [if_neg hw] at hC
    cases hcwd : t.cwd with
    | none => rw [hcwd] at hC; cases hC
    | some c =>
        rw [hcwd] at hC
        exact ⟨c, rfl, beq_iff_eq.mp hC⟩
  · intro isWin st inp env w hwd hyp
    have hnone : findIdleTerminal isWin inp.terminalName inp.workingDirectory st = none := by
      unfold findIdleTerminal
      apply List.find?_eq_none.mpr
      intro x hx hpred
      simp only [Bool.and_eq_true] at hpred
      obtain ⟨⟨hA, hB⟩, hC⟩ := hpred
      have hBusy : x.1 ∉ st.busyTerminals := by simpa using hB
      have hfalse := hyp x hx hA hBusy
      rw [hwd, hfalse] at hC
      cases hC
    cases hbg : inp.isBackground <;>
      cases ho : effOutcome inp.timeoutMs env.outcome <;>
        simp [executeInTerminal, hnone, hbg, ho]

/-- C6 witness: part 1 at a pool with a matching idle terminal, part 2 at
a pool whose only idle terminal has a different working directory. -/
theorem C6_working_directory_isolation_witness :
    (strStartsWith "Script Runner (pwsh) (x)" "Script Runner (pwsh)" = true ∧
      "x" ∉ ({ activeTerminals :=
                 [("x", { name := "Script Runner (pwsh) (x)", cwd := some "/b" })],
               busyTerminals := [] } : PoolState).busyTerminals ∧
      ∃ c, ({ name := "Script Runner (pwsh) (x)", cwd := some "/b" } : Terminal).cwd
            = some c ∧
        normalizePath false c = normalizePath false "/b") ∧
    ((executeInTerminal false
        { activeTerminals :=
            [("x", { name := "Script Runner (pwsh) (x)", cwd := some "/a" })],
          busyTerminals := [] }
        { command := "run", terminalName := "Script Runner (pwsh)", isBackground := false,
          timeoutMs := none, closeOnTimeout := false, scriptPath := none,
          keepScript := false, workingDirectory := some "/b" }
        { freshTerminalId := "t9", freshCommandId := "cmd-9", startNow := 0,
          chunks := [], outcome := .completed }).isNewTerminal = true ∧
      (executeInTerminal false
        { activeTerminals :=
            [("x", { name := "Script Runner (pwsh) (x)", cwd := some "/a" })],
          busyTerminals := [] }
        { command := "run", terminalName := "Script Runner (pwsh)", isBackground := false,
          timeoutMs := none, closeOnTimeout := false, scriptPath := none,
          keepScript := false, workingDirectory := some "/b" }
        { freshTerminalId := "t9", freshCommandId := "cmd-9", startNow := 0,
          chunks := [], outcome := .completed }).terminalId = "t9") :=
  ⟨C6_working_directory_isolation.1 false "Script Runner (pwsh)" "/b"
      { activeTerminals :=
          [("x", { name := "Script Runner (pwsh) (x)", cwd := some "/b" })],
        busyTerminals := [] }
      "x" { name := "Script Runner (pwsh) (x)", cwd := some "/b" }
      (by decide) (by decide),
   C6_working_directory_isolation.2 false
      { activeTerminals :=
          [("x", { name := "Script Runner (pwsh) (x)", cwd := some "/a" })],
        busyTerminals := [] }
      { command := "run", terminalName := "Script Runner (pwsh)", isBackground := false,
        timeoutMs := none, closeOnTimeout := false, scriptPath := none,
        keepScript := false, workingDirectory := some "/b" }
      { freshTerminalId := "t9", freshCommandId := "cmd-9", startNow := 0,
        chunks := [], outcome := .completed }
      "/b" rfl (by decide)⟩

theorem findIdle_not_busy {isWin : Bool} {namePre : String} {wd : Option String}
    {st : PoolState} {tid : String} {t : Terminal}
    (h : findIdleTerminal isWin namePre wd st = some (tid, t)) :
    tid ∉ st.busyTerminals := by
  unfold findIdleTerminal at h
  have hp := List.find?_some h
  simp only [Bool.and_eq_true] at hp
  simpa using hp.1.2

theorem strStartsWith_append3 (a b c d : String) :
    strStartsWith (a ++ b ++ c ++ d) a = true := by
  apply strStartsWith_of_data a _ (b.data ++ (c.data ++ d.data))
  simp [String.data_append, List.append_assoc]

/--
C7: two successive executions with the same terminal-name argument and no
working-directory constraint, where the first runs in the foreground (so
its terminal is released when it returns) and the generated fresh id is
not already marked busy: the second execution acquires the same terminal
id as the first, and does not create a new terminal.
-/
theorem C7_idle_terminal_reuse (isWin : Bool) (st : PoolState)
    (inp1 inp2 : ExecInput) (env1 env2 : ExecEnv)
    (hbg1 : inp1.isBackground = false)
    (hw1 : inp1.workingDirectory = none) (hw2 : inp2.workingDirectory = none)
    (hname : inp2.terminalName = inp1.terminalName)
    (hfresh : env1.freshTerminalId ∉ st.busyTerminals) :
    (executeInTerminal isWin (executeInTerminal isWin st inp1 env1).pool
        inp2 env2).terminalId = (executeInTerminal isWin st inp1 env1).terminalId ∧
    (executeInTerminal isWin (executeInTerminal isWin st inp1 env1).pool
        inp2 env2).isNewTerminal = false := by
  cases hf : findIdleTerminal isWin inp1.terminalName inp1.workingDirectory st with
  | some p =>
      obtain ⟨a, t⟩ := p
      have ha : a ∉ st.busyTerminals := findIdle_not_busy hf
      have hpool : (executeInTerminal isWin st inp1 env1).pool = st := by
        cases ho : effOutcome inp1.timeoutMs env1.outcome <;>
          simp [executeInTerminal, hf, hbg1, ho, busyRemove_busyAdd ha]
      have hid : (executeInTerminal isWin st inp1 env1).terminalId = a := by
        cases ho : effOutcome inp1.timeoutMs env1.outcome <;>
          simp [executeInTerminal, hf, hbg1, ho]
      rw [hpool, hid]
      have hf2 : findIdleTerminal isWin inp2.terminalName inp2.workingDirectory st
          = some (a, t) := by
        rw [hname, hw2]
        rw [hw1] at hf
        exact hf
      cases hbg2 : inp2.isBackground <;>
        cases ho2 : effOutcome inp2.timeoutMs env2.outcome <;>
          simp [executeInTerminal, hf2, hbg2, ho2]
  | none =>
      have hpool : (executeInTerminal isWin st inp1 env1).pool =
          { activeTerminals := st.activeTerminals ++
              [(env1.freshTerminalId,
                { name := inp1.terminalName ++ " (" ++ env1.freshTerminalId ++ ")",
                  cwd := none })],
            busyTerminals := st.busyTerminals } := by
        cases ho : effOutcome inp1.timeoutMs env1.outcome <;>
          simp [executeInTerminal, hf, hbg1, ho, busyRemove_busyAdd hfresh]
      have hid : (executeInTerminal isWin st inp1 env1).terminalId
          = env1.freshTerminalId := by
        cases ho : effOutcome inp1.timeoutMs env1.outcome <;>
          simp [executeInTerminal, hf, hbg1, ho]
      rw [hpool, hid]
      have hf2 : findIdleTerminal isWin inp2.terminalName inp2.workingDirectory
          { activeTerminals := st.activeTerminals ++
              [(env1.freshTerminalId,
                { name := inp1.terminalName ++ " (" ++ env1.freshTerminalId ++ ")",
                  cwd := none })],
            busyTerminals := st.busyTerminals }
          = some (env1.freshTerminalId,
              { name := inp1.terminalName ++ " (" ++ env1.freshTerminalId ++ ")",
                cwd := none }) := by
        rw [hname, hw2]
        unfold findIdleTerminal
        dsimp only
        rw [List.find?_append]
        have h1 : st.activeTerminals.find? (fun e =>
            strStartsWith e.2.name inp1.terminalName &&
              !(decide (e.1 ∈ st.busyTerminals)) && cwdMatches isWin none e.2) = none := by
          rw [hw1] at hf
          unfold findIdleTerminal at hf
          exact hf
        rw [h1]
        have hpred : (strStartsWith
              (inp1.terminalName ++ " (" ++ env1.freshTerminalId ++ ")")
              inp1.terminalName &&
            !(decide (env1.freshTerminalId ∈ st.busyTerminals)) &&
            cwdMatches isWin none
              { name := inp1.terminalName ++ " (" ++ env1.freshTerminalId ++ ")",
                cwd := none }) = true := by
          simp [strStartsWith_append3, hfresh, cwdMatches]
        simp [List.find?_cons, hpred]
      cases hbg2 : inp2.isBackground <;>
        cases ho2 : effOutcome inp2.timeoutMs env2.outcome <;>
          simp [executeInTerminal, hf2, hbg2, ho2]

/-- C7 witness: on an empty pool the first execution creates terminal
`t1`; a second execution with the same name reuses `t1`. -/
theorem C7_idle_terminal_reuse_witness :
    (executeInTerminal false
        (executeInTerminal false { activeTerminals := [], busyTerminals := [] }
          { command := "run1", terminalName := "Script Runner (pwsh)", isBackground := false,
            timeoutMs := none, closeOnTimeout := false, scriptPath := none,
            keepScript := false, workingDirectory := none }
          { freshTerminalId := "t1", freshCommandId := "cmd-1", startNow := 0,
            chunks := ["a"], outcome := .completed }).pool
        { command := "run2", terminalName := "Script Runner (pwsh)", isBackground := false,
          timeoutMs := none, closeOnTimeout := false, scriptPath := none,
          keepScript := false, workingDirectory := none }
        { freshTerminalId := "t2", freshCommandId := "cmd-2", startNow := 1,
          chunks := ["b"], outcome := .completed }).terminalId =
      (executeInTerminal false { activeTerminals := [], busyTerminals := [] }
        { command := "run1", terminalName := "Script Runner (pwsh)", isBackground := false,
          timeoutMs := none, closeOnTimeout := false, scriptPath := none,
          keepScript := false, workingDirectory := none }
        { freshTerminalId := "t1", freshCommandId := "cmd-1", startNow := 0,
          chunks := ["a"], outcome := .completed }).terminalId ∧
    (executeInTerminal false
        (executeInTerminal false { activeTerminals := [], busyTerminals := [] }
          { command := "run1", terminalName := "Script Runner (pwsh)", isBackground := false,
            timeoutMs := none, closeOnTimeout := false, scriptPath := none,
            keepScript := false, workingDirectory := none }
          { freshTerminalId := "t1", freshCommandId := "cmd-1", startNow := 0,
            chunks := ["a"], outcome := .completed }).pool
        { command := "run2", terminalName := "Script Runner (pwsh)", isBackground := false,
          timeoutMs := none, closeOnTimeout := false, scriptPath := none,
          keepScript := false, workingDirectory := none }
        { freshTerminalId := "t2", freshCommandId := "cmd-2", startNow := 1,
          chunks := ["b"], outcome := .completed }).isNewTerminal = false :=
  C7_idle_terminal_reuse false { activeTerminals := [], busyTerminals := [] }
    { command := "run1", terminalName := "Script Runner (pwsh)", isBackground := false,
      timeoutMs := none, closeOnTimeout := false, scriptPath := none,
      keepScript := false, workingDirectory := none }
    { command := "run2", terminalName := "Script Runner (pwsh)", isBackground := false,
      timeoutMs := none, closeOnTimeout := false, scriptPath := none,
      keepScript := false, workingDirectory := none }
    { freshTerminalId := "t1", freshCommandId := "cmd-1", startNow := 0,
      chunks := ["a"], outcome := .completed }
    { freshTerminalId := "t2", freshCommandId := "cmd-2", startNow := 1,
      chunks := ["b"], outcome := .completed }
    rfl rfl rfl rfl (by decide)

theorem backslash_not_mem_slashify (p : String) : '\\' ∉ (slashify p).data := by
  intro h
  have h2 : '\\' ∈ List.map (fun c => if c = '\\' then '/' else c) p.data := h
  simp only [List.mem_map] at h2
  obtain ⟨x, _, hfx⟩ := h2
  by_cases hx : x = '\\'
  · rw [if_pos hx] at hfx
    exact absurd hfx (by decide)
  · rw [if_neg hx] at hfx
    exact hx hfx

theorem backslash_not_mem_wslRewrite (p : String) : '\\' ∉ (wslRewrite p).data := by
  have hs := backslash_not_mem_slashify p
  unfold wslRewrite
  rcases hm : (slashify p).data with _ | ⟨c, tail⟩
  · simp only [hm]
    simp
  · rcases tail with _ | ⟨d, rest⟩
    · simpa [hm] using hs
    · simp only [hm]
      by_cases h : c.isUpper = true ∧ d = ':'
      · rw [if_pos h]
        intro hmem
        have hmem2 : '\\' ∈ "/mnt/".data ++ [c.toLower] ++ rest := hmem
        simp only [List.mem_append, List.mem_singleton] at hmem2
        rcases hmem2 with (hm5 | hlow) | hrest
        · exact absurd hm5 (by decide)
        · exact toLower_ne_backslash c h.1 hlow.symm
        · rw [hm] at hs
          exact hs (by simp [hrest])
      · rw [if_neg h]
        exact hs

/--
C8: for every script path, `buildScriptCommand` for the `Wsl` shell kind
(a) produces exactly `wsl bash -c \x27 …inner… \x27` where the inner,
single-quoted bash command carries the `2>&1` stderr-merge (so the
redirection sits inside the target shell's syntax, not in the invoking
shell's), (b) the rewritten path contains no backslash, and (c) a leading
uppercase drive letter `X:` is rewritten to `/mnt/x` (lowercased) with the
remaining characters backslash-to-slash converted.
-/
theorem C8_wsl_command_shape :
    (∀ (p : String) (ex : Option ShellType),
        buildScriptCommand p ShellType.Wsl ex =
          "wsl bash -c \x27" ++ ("bash \"" ++ wslRewrite p ++ "\" 2>&1") ++ "\x27") ∧
    (∀ p : String, '\\' ∉ (wslRewrite p).data) ∧
    (∀ (p : String) (c : Char) (rest : List Char),
        p.data = c :: ':' :: rest → c.isUpper = true →
        (wslRewrite p).data = "/mnt/".data ++ [c.toLower] ++
          List.map (fun ch => if ch = '\\' then '/' else ch) rest) := by
  refine ⟨?_, backslash_not_mem_wslRewrite, ?_⟩
  · intro p ex
    apply String.ext
    have hlit1 : ("wsl bash -c \x27bash \"" : String).data =
        ("wsl bash -c \x27" : String).data ++ ("bash \"" : String).data := by decide
    have hlit2 : ("\" 2>&1\x27" : String).data =
        ("\" 2>&1" : String).data ++ ("\x27" : String).data := by decide
    show (("wsl bash -c \x27bash \"" ++ wslRewrite p ++ "\" 2>&1\x27" : String)).data = _
    simp [String.data_append, List.append_assoc, hlit1, hlit2]
  · intro p c rest hdata hup
    have hc : c ≠ '\\' := by
      intro h
      rw [h] at hup
      exact absurd hup (by decide)
    have hslash : (slashify p).data =
        c :: ':' :: List.map (fun ch => if ch = '\\' then '/' else ch) rest := by
      show List.map (fun ch => if ch = '\\' then '/' else ch) p.data = _
      rw [hdata]
      simp [hc]
    unfold wslRewrite
    simp only [hslash]
    rw [if_pos ⟨hup, trivial⟩]

/-- C8 witness: the drive-letter branch applied at the concrete path
`C:\temp\s.sh`. -/
theorem C8_wsl_command_shape_witness :
    (wslRewrite "C:\\temp\\s.sh").data = "/mnt/".data ++ ['C'.toLower] ++
      List.map (fun ch => if ch = '\\' then '/' else ch) "\\temp\\s.sh".data :=
  C8_wsl_command_shape.2.2 "C:\\temp\\s.sh" 'C' "\\temp\\s.sh".data
    (by decide) (by decide)

theorem foldl_append_str (l : List String) (s : String) :
    l.foldl (· ++ ·) s = s ++ l.foldl (· ++ ·) "" := by
  induction l generalizing s with
  | nil => simp [String.append_empty]
  | cons x l ih =>
      rw [List.foldl_cons, List.foldl_cons, ih (s ++ x), ih (("" : String) ++ x)]
      rw [String.empty_append, String.append_assoc]

theorem accumOutput_append (l1 l2 : List String) :
    accumOutput (l1 ++ l2) = accumOutput l1 ++ accumOutput l2 := by
  unfold accumOutput
  rw [List.foldl_append]
  exact foldl_append_str l2 _

/--
C9: the background accumulator of a registered command is append-only and
completes exactly once: at every step its accumulated output is a prefix of
the next step's output; `completed` is monotone and holds exactly after the
final (stream-end) event, so it transitions false→true exactly once, at
which point the output equals the full accumulated stream; and the
command's registry record after completion is exactly the accumulator's
product — `completed = true` with output `bgFinalOutput` — for every
execution, background or foreground, whatever the race outcome (the
orchestrator itself never mutates the record).
-/
theorem C9_accumulator_append_only :
    (∀ (chunks : List String) (i : Nat),
        (accumState chunks i).1.data <+: (accumState chunks (i + 1)).1.data) ∧
    (∀ (chunks : List String) (i : Nat),
        (accumState chunks i).2 = true → (accumState chunks (i + 1)).2 = true) ∧
    (∀ (chunks : List String) (i : Nat),
        (accumState chunks i).2 = true ↔ chunks.length < i) ∧
    (∀ chunks : List String,
        (accumState chunks (chunks.length + 1)).1 = accumOutput chunks) ∧
    (∀ (isWin : Bool) (st : PoolState) (inp : ExecInput) (env : ExecEnv),
        (executeInTerminal isWin st inp env).commandFinal.completed = true ∧
        (executeInTerminal isWin st inp env).commandFinal.output =
          bgFinalOutput env.chunks env.outcome) := by
  refine ⟨?_, ?_, ?_, ?_, ?_⟩
  · intro chunks i
    unfold accumState
    by_cases h1 : i + 1 ≤ chunks.length
    · have h0 : i ≤ chunks.length := by omega
      rw [if_pos h0, if_pos h1]
      show (accumOutput (chunks.take i)).data <+: (accumOutput (chunks.take (i + 1))).data
      rw [List.take_succ, accumOutput_append, String.data_append]
      exact List.prefix_append _ _
    · by_cases h0 : i ≤ chunks.length
      · rw [if_pos h0, if_neg h1]
        have hlen : i = chunks.length := by omega
        subst hlen
        rw [List.take_length]
      · rw [if_neg h0, if_neg h1]
  · intro chunks i h
    unfold accumState at h ⊢
    by_cases h0 : i ≤ chunks.length
    · rw [if_pos h0] at h
      cases h
    · have h1 : ¬(i + 1 ≤ chunks.length) := by omega
      rw [if_neg h1]
  · intro chunks i
    unfold accumState
    by_cases h0 : i ≤ chunks.length
    · rw [if_pos h0]
      constructor
      · intro h; cases h
      · intro h; exact absurd h (by omega)
    · rw [if_neg h0]
      constructor
      · intro _; omega
      · intro _; rfl
  · intro chunks
    unfold accumState
    rw [if_neg (by omega)]
  · intro isWin st inp env
    cases hf : findIdleTerminal isWin inp.terminalName inp.workingDirectory st with
    | none =>
        cases hbg : inp.isBackground <;>
          cases ho : effOutcome inp.timeoutMs env.outcome <;>
            simp [executeInTerminal, hf, hbg, ho]
    | some p =>
        obtain ⟨tid, t⟩ := p
        cases hbg : inp.isBackground <;>
          cases ho : effOutcome inp.timeoutMs env.outcome <;>
            simp [executeInTerminal, hf, hbg, ho]

/-- C9 witness: the monotone-completion component applied at a concrete
accumulator state. -/
theorem C9_accumulator_append_only_witness :
    (accumState ([] : List String) 2).2 = true :=
  C9_accumulator_append_only.2.1 [] 1 (by decide)

theorem executeInTerminal_commandFinal (isWin : Bool) (st : PoolState)
    (inp : ExecInput) (env : ExecEnv) :
    (executeInTerminal isWin st inp env).commandFinal =
      { commandId := env.freshCommandId,
        terminalId := (executeInTerminal isWin st inp env).terminalId,
        closeOnTimeout := inp.closeOnTimeout, startedAt := env.startNow,
        output := bgFinalOutput env.chunks env.outcome, completed := true,
        scriptPath := inp.scriptPath, keepScript := inp.keepScript } := by
  cases hf : findIdleTerminal isWin inp.terminalName inp.workingDirectory st with
  | none =>
      cases hbg : inp.isBackground <;>
        cases ho : effOutcome inp.timeoutMs env.outcome <;>
          simp [executeInTerminal, hf, hbg, ho]
  | some p =>
      obtain ⟨tid, t⟩ := p
      cases hbg : inp.isBackground <;>
        cases ho : effOutcome inp.timeoutMs env.outcome <;>
          simp [executeInTerminal, hf, hbg, ho]

theorem executeInTerminal_timeout_result (isWin : Bool) (st : PoolState)
    (inp : ExecInput) (env : ExecEnv) (t k : Nat)
    (hbg : inp.isBackground = false) (ht : inp.timeoutMs = some t)
    (ho : env.outcome = .timedOut k) :
    (executeInTerminal isWin st inp env).result =
      { stdout := accumOutput (env.chunks.take k) ++
          "\n\n[Output truncated - command timed out or is still running." ++
          (if inp.closeOnTimeout then " Command was interrupted (Ctrl+C)." else "") ++
          " Command ID: " ++ env.freshCommandId ++ "]",
        stderr := "", exitCode := if inp.closeOnTimeout then 1 else 0,
        commandId := some env.freshCommandId, isBackground := false } := by
  cases hf : findIdleTerminal isWin inp.terminalName inp.workingDirectory st with
  | none => simp [executeInTerminal, hf, hbg, ht, ho, effOutcome]
  | some p =>
      obtain ⟨tid, t2⟩ := p
      simp [executeInTerminal, hf, hbg, ht, ho, effOutcome]

/--
C4: a foreground execution whose stream outlasts the timeout returns the
output accumulated so far with the truncation annotation and the command
id; the command's registry record nevertheless completes with the full
eventual output, and a later `GetScriptOutputTool.invoke` with
`waitForCompletion=true` (modelled by querying the post-completion registry
snapshot) renders status `completed` together with that full output.
-/
theorem C4_timeout_partial_then_full (isWin : Bool) (st : PoolState) (inp : ExecInput)
    (env : ExecEnv) (t k : Nat)
    (hbg : inp.isBackground = false) (ht : inp.timeoutMs = some t)
    (ho : env.outcome = .timedOut k) :
    (executeInTerminal isWin st inp env).result.stdout =
      accumOutput (env.chunks.take k) ++
        "\n\n[Output truncated - command timed out or is still running." ++
        (if inp.closeOnTimeout then " Command was interrupted (Ctrl+C)." else "") ++
        " Command ID: " ++ env.freshCommandId ++ "]" ∧
    (executeInTerminal isWin st inp env).result.commandId = some env.freshCommandId ∧
    (executeInTerminal isWin st inp env).commandFinal.completed = true ∧
    (executeInTerminal isWin st inp env).commandFinal.output = accumOutput env.chunks ∧
    (∀ (terminals : List (String × Terminal)) (tm : Terminal),
        lookupList terminals (executeInTerminal isWin st inp env).terminalId = some tm →
        accumOutput env.chunks ≠ "" →
        getScriptOutputInvoke
            [(env.freshCommandId, (executeInTerminal isWin st inp env).commandFinal)]
            terminals env.freshCommandId =
          "Terminal: " ++ tm.name ++ "\nCommand ID: " ++ env.freshCommandId ++
            "\nStatus: " ++ "completed" ++ "\n\nOutput:\n" ++ accumOutput env.chunks) := by
  refine ⟨?_, ?_, ?_, ?_, ?_⟩
  · rw [executeInTerminal_timeout_result isWin st inp env t k hbg ht ho]
  · rw [executeInTerminal_timeout_result isWin st inp env t k hbg ht ho]
  · rw [executeInTerminal_commandFinal]
  · rw [executeInTerminal_commandFinal]
    show bgFinalOutput env.chunks env.outcome = accumOutput env.chunks
    rw [ho]
    rfl
  · intro terminals tm hterm hne
    rw [executeInTerminal_commandFinal]
    unfold getScriptOutputInvoke lookupList
    unfold lookupList at hterm
    simp only [List.find?_cons, beq_self_eq_true, Option.map_some']
    rw [hterm, ho]
    simp [hne, bgFinalOutput]

/-- C4 witness: the truncation theorem applied at a concrete timed-out
run (three chunks, one arrived before the timeout), then queried through
the post-completion registry snapshot. -/
theorem C4_timeout_partial_then_full_witness :
    (executeInTerminal false { activeTerminals := [], busyTerminals := [] }
        { command := "run", terminalName := "Script Runner (pwsh)", isBackground := false,
          timeoutMs := some 100, closeOnTimeout := false, scriptPath := none,
          keepScript := false, workingDirectory := none }
        { freshTerminalId := "t1", freshCommandId := "cmd-1", startNow := 0,
          chunks := ["A\n", "B\n", "C\n"], outcome := .timedOut 1 }).result.stdout =
      accumOutput (["A\n", "B\n", "C\n"].take 1) ++
        "\n\n[Output truncated - command timed out or is still running." ++
        (if false then " Command was interrupted (Ctrl+C)." else "") ++
        " Command ID: " ++ "cmd-1" ++ "]" ∧
    getScriptOutputInvoke
        [("cmd-1",
          (executeInTerminal false { activeTerminals := [], busyTerminals := [] }
            { command := "run", terminalName := "Script Runner (pwsh)", isBackground := false,
              timeoutMs := some 100, closeOnTimeout := false, scriptPath := none,
              keepScript := false, workingDirectory := none }
            { freshTerminalId := "t1", freshCommandId := "cmd-1", startNow := 0,
              chunks := ["A\n", "B\n", "C\n"], outcome := .timedOut 1 }).commandFinal)]
        [("t1", { name := "Script Runner (pwsh) (t1)", cwd := none })] "cmd-1" =
      "Terminal: " ++ "Script Runner (pwsh) (t1)" ++ "\nCommand ID: " ++ "cmd-1" ++
        "\nStatus: " ++ "completed" ++ "\n\nOutput:\n" ++
        accumOutput ["A\n", "B\n", "C\n"] := by
  have h := C4_timeout_partial_then_full false
    { activeTerminals := [], busyTerminals := [] }
    { command := "run", terminalName := "Script Runner (pwsh)", isBackground := false,
      timeoutMs := some 100, closeOnTimeout := false, scriptPath := none,
      keepScript := false, workingDirectory := none }
    { freshTerminalId := "t1", freshCommandId := "cmd-1", startNow := 0,
      chunks := ["A\n", "B\n", "C\n"], outcome := .timedOut 1 }
    100 1 rfl rfl rfl
  exact ⟨h.1, h.2.2.2.2 [("t1", { name := "Script Runner (pwsh) (t1)", cwd := none })]
    { name := "Script Runner (pwsh) (t1)", cwd := none } (by decide) (by decide)⟩

end ScriptRunner
